import Mathlib

set_option maxHeartbeats 1000000
set_option autoImplicit false

/-!
Shallow embedding of the `langchain_with_mcp` repository
(`src/db_helpers.py`, `src/api_helpers.py`, `src/server.py`).

Conventions of the embedding:
* Python `None` / missing optional arguments are `Option.none`.
* A Python `dict` (an `asyncpg.Record` converted with `dict(row)`, or a parsed
  JSON object) is an association list keyed by `String`; lookup returns the
  first matching key, which agrees with Python dicts since their keys are
  unique.
* The relational store is a `List Customer`; each data-access helper is a pure
  function from the store (and its arguments) to its result and the new store.
  Connection-pool acquisition failures and query exceptions (which the source
  catches and converts to `None`/`[]`/`False`) are not modelled: the claims
  under verification are about the query semantics on a reachable store.
* Exceptions that the source does NOT catch are modelled with `Except PyErr`.
-/

/-- A Python scalar value as stored in a customer row dict. -/
inductive PyVal where
  | none
  | int (n : Int)
  | str (s : String)
  deriving DecidableEq, Repr

/-- Python `str()` of a scalar, as produced by f-string interpolation:
`str(None) = "None"`, integers print in decimal, strings are themselves. -/
def pystr : PyVal → String
  | PyVal.none => "None"
  | PyVal.int n => toString n
  | PyVal.str s => s

/-- A Python dict with string keys and scalar values (e.g. `dict(row)`). -/
abbrev PyDict := List (String × PyVal)

/-- Python `d[k]` / `d.get(k)` key lookup (keys of a dict are unique, so
first-match lookup agrees with Python). -/
def dictGet (d : PyDict) (k : String) : Option PyVal :=
  (d.find? (fun kv => kv.1 == k)).map (·.2)

/-- A row of the `customers(id, name, email, age, prefer_package)` table.
`dict(row)` always carries all five keys; SQL `NULL` is `Option.none`. -/
structure Customer where
  id : Int
  name : Option String
  email : Option String
  age : Option Int
  prefer_package : Option Int
  deriving DecidableEq, Repr

/-- `SELECT * FROM customers WHERE id = $1` with `fetchrow`: the first row
whose id matches, if any (db_helpers.get_customer_by_id, and the initial
fetch inside db_helpers.update_customer). -/
def findCustomer (db : List Customer) (cid : Int) : Option Customer :=
  db.find? (fun r => r.id == cid)

/-- Python `x if x is not None else cur` (the merge lines of
db_helpers.update_customer). -/
def pyCoalesce {α : Type} (x cur : Option α) : Option α :=
  match x with
  | some v => some v
  | Option.none => cur

/-- db_helpers.update_customer: fetch the current row; if none, return `None`;
otherwise merge each argument with the current value (`x if x is not None
else current[...]`), run
`UPDATE customers SET name=$1, email=$2, age=$3, prefer_package=$5 WHERE id=$4
RETURNING *` (note the source binds prefer_package to `$5` and the id to `$4`),
and return the updated row.  The pair is (returned row, store after the call). -/
def update_customer (db : List Customer) (cid : Int)
    (name email : Option String) (age ppkg : Option Int) :
    Option Customer × List Customer :=
  match findCustomer db cid with
  | Option.none => (Option.none, db)
  | some current =>
    let merged : Customer :=
      { id := current.id
        name := pyCoalesce name current.name
        email := pyCoalesce email current.email
        age := pyCoalesce age current.age
        prefer_package := pyCoalesce ppkg current.prefer_package }
    (some merged, db.map (fun r => if r.id == cid then merged else r))

/-- Number of rows the SQL `DELETE FROM customers WHERE id = $1` affects. -/
def affectedRows (db : List Customer) (cid : Int) : Nat :=
  db.countP (fun r => r.id == cid)

/-- The command status string `asyncpg`'s `Connection.execute` returns for a
DELETE statement: `"DELETE {count}"` with the number of affected rows. -/
def pgDeleteStatus (db : List Customer) (cid : Int) : String :=
  "DELETE " ++ toString (affectedRows db cid)

/-- Python `needle in hay` substring containment on strings. -/
def pyInStr (needle hay : String) : Bool :=
  hay.data.tails.any (fun t => needle.data.isPrefixOf t)

/-- db_helpers.delete_customer: run the DELETE, then return
`'DELETE' in result` where `result` is the status string.  The pair is
(returned flag, store after the call). -/
def delete_customer (db : List Customer) (cid : Int) : Bool × List Customer :=
  let result := pgDeleteStatus db cid
  let db' := db.filter (fun r => !(r.id == cid))
  (pyInStr "DELETE" result, db')

/-- db_helpers.add_customer: `INSERT INTO customers (name, email, age,
prefer_package) VALUES ($1,$2,$3,$4) RETURNING *`.  Modelled from the spec
for the part outside `src/`: the relational store itself assigns a fresh,
previously unused integer identifier to the new row ("identifier (integer,
server-assigned, unique)"); here it is one more than the largest id in the
store.  The four argument fields are stored exactly as passed
(`None` becomes SQL `NULL`). -/
def add_customer (db : List Customer) (name email : String)
    (age ppkg : Option Int) : Option Customer × List Customer :=
  let nid : Int := (db.map (·.id)).foldl max 0 + 1
  let c : Customer :=
    { id := nid, name := some name, email := some email,
      age := age, prefer_package := ppkg }
  (some c, db ++ [c])

/-! ## `textwrap.dedent`

The formatter templates in `server.py` and `api_helpers.py` are built with
`dedent(f"...")`.  CPython's `textwrap.dedent` (a) replaces every line that
consists solely of spaces/tabs by an empty line, (b) computes the margin as
the longest common prefix of the leading space/tab runs of all lines that
contain a non-whitespace character, and (c) strips that margin from the
start of every line that begins with it. -/

/-- A `[ \t]` character, the whitespace class `textwrap.dedent` works with. -/
def isWsCh (c : Char) : Bool := c == ' ' || c == '\t'

/-- Split a character list at `'\n'` (Python `str.split('\n')` shape:
n newlines give n+1 lines, possibly empty). -/
def splitNl : List Char → List (List Char)
  | [] => [[]]
  | c :: rest =>
    if c = '\n' then [] :: splitNl rest
    else
      match splitNl rest with
      | [] => [[c]]
      | l :: ls => (c :: l) :: ls

/-- Rejoin lines with `'\n'` (left inverse of `splitNl`). -/
def joinNl : List (List Char) → List Char
  | [] => []
  | [l] => l
  | l :: ls => l ++ '\n' :: joinNl ls

/-- `textwrap.dedent` step (a): a line matching `^[ \t]+$` becomes empty. -/
def wsNormalize (l : List Char) : List Char :=
  if !l.isEmpty && l.all isWsCh then [] else l

/-- A line matched by `(^[ \t]*)(?:[^ \t\n])`: it contains a character that is
not a space or tab (lines never contain `'\n'`). -/
def hasContent (l : List Char) : Bool := l.any (fun c => !isWsCh c)

/-- The leading `[ \t]*` run of a line. -/
def leadIndent (l : List Char) : List Char := l.takeWhile isWsCh

/-- Longest common prefix of two indents, the combination step of
`textwrap.dedent`'s margin computation. -/
def commonPfx : List Char → List Char → List Char
  | x :: xs, y :: ys => if x = y then x :: commonPfx xs ys else []
  | _, _ => []

/-- `textwrap.dedent` step (b): the margin of the (already normalized) lines. -/
def marginOf (ls : List (List Char)) : List Char :=
  match (ls.filter hasContent).map leadIndent with
  | [] => []
  | i :: is => is.foldl commonPfx i

/-- `textwrap.dedent` step (c): `re.sub('(?m)^' + margin, '', text)` removes
the margin from each line that starts with it. -/
def stripMargin (m l : List Char) : List Char :=
  if m.isPrefixOf l then l.drop m.length else l

/-- The line pipeline of `textwrap.dedent`: normalize whitespace-only
lines, then strip the margin of the normalized lines from each of them. -/
def dedentLines (ls : List (List Char)) : List (List Char) :=
  (ls.map wsNormalize).map (stripMargin (marginOf (ls.map wsNormalize)))

/-- CPython `textwrap.dedent`. -/
def pyDedent (s : String) : String :=
  String.mk (joinNl (dedentLines (splitNl s.data)))

/-! ## Response formatter and tool dispatcher (`server.py`) -/

/-- Python `str(customer.get(k, 'N/A'))`: the stored value rendered by `str()`
when the key is present, the literal `"N/A"` when it is absent. -/
def fmtOptField (c : PyDict) (k : String) : String :=
  match dictGet c k with
  | some v => pystr v
  | Option.none => "N/A"

/-- Python `str(customer.get('id'))`: `.get` without a default returns `None`
for an absent key, which renders as `"None"`. -/
def fmtIdField (c : PyDict) : String :=
  pystr ((dictGet c "id").getD PyVal.none)

/-- The f-string body of `get_customer`'s success branch, before `dedent`
(server.py lines 64-71); written as one append per template line so the
line structure is visible, concatenating to exactly the Python f-string. -/
def customerDetailsBody (c : PyDict) : String :=
  "\n" ++ "    Customer Details:"
  ++ "\n" ++ "    ID: " ++ fmtIdField c
  ++ "\n" ++ "    Name: " ++ fmtOptField c "name"
  ++ "\n" ++ "    Email: " ++ fmtOptField c "email"
  ++ "\n" ++ "    Age: " ++ fmtOptField c "age"
  ++ "\n" ++ "    Prefer Package: " ++ fmtOptField c "prefer_package"
  ++ "\n" ++ "    "

/-- The text block `get_customer` returns for a found record. -/
def customerDetailsBlock (c : PyDict) : String :=
  pyDedent (customerDetailsBody c)

/-- server.py `get_customer`: the fetched row (result of
`get_customer_by_id`) is the oracle input; `if not customer` covers both
`None` and a (never occurring) empty dict. -/
def get_customer (cid : Int) (fetched : Option PyDict) : String :=
  match fetched with
  | Option.none => "No customer found with ID: " ++ toString cid
  | some c =>
    if c.isEmpty then "No customer found with ID: " ++ toString cid
    else customerDetailsBlock c

/-- Python truthiness of an optional string argument:
`None` and `""` are falsy. -/
def pyTruthyStrOpt : Option String → Bool
  | Option.none => false
  | some s => s != ""

/-- Python truthiness of an optional int argument: `None` and `0` are falsy. -/
def pyTruthyIntOpt : Option Int → Bool
  | Option.none => false
  | some n => n != 0

/-- Python `str(v)` for an `Option String` field of a row dict
(`None` renders as `"None"`). -/
def pyShowOptStr : Option String → String
  | some s => s
  | Option.none => "None"

/-- Python `str(v)` for an `Option Int` field of a row dict. -/
def pyShowOptInt : Option Int → String
  | some n => toString n
  | Option.none => "None"

/-- The success block of `modify_customer` (server.py lines 124-131).  The
row dict returned by `RETURNING *` always has all five keys, so
`customer.get('age', 'N/A')` yields the stored value (possibly `None`),
never the `'N/A'` default. -/
def updatedCustomerBlock (c : Customer) : String :=
  pyDedent ("\n" ++ "    Customer updated successfully:"
    ++ "\n" ++ "    ID: " ++ toString c.id
    ++ "\n" ++ "    Name: " ++ pyShowOptStr c.name
    ++ "\n" ++ "    Email: " ++ pyShowOptStr c.email
    ++ "\n" ++ "    Age: " ++ pyShowOptInt c.age
    ++ "\n" ++ "    Prefer Package: " ++ pyShowOptInt c.prefer_package
    ++ "\n" ++ "    ")

/-- Result of a dispatcher call, instrumented with whether the data-access
adapter was invoked (the source's control flow makes this explicit: the
guard branches return before any `await` on the adapter). -/
structure ModifyResult where
  text : String
  adapterCalled : Bool
  db : List Customer
  deriving DecidableEq, Repr

/-- The missing-field error text of `modify_customer`. -/
def modifyMissingFieldMsg : String :=
  "Error: At least one field (name, email, or phone) must be provided for update."

/-- server.py `modify_customer`: `if not any([name, email, age,
prefer_package])` uses Python truthiness, so a supplied `0` or `""` counts
as absent; otherwise the call is forwarded to `update_customer`. -/
def modify_customer (db : List Customer) (cid : Int)
    (name email : Option String) (age ppkg : Option Int) : ModifyResult :=
  if !(pyTruthyStrOpt name || pyTruthyStrOpt email
       || pyTruthyIntOpt age || pyTruthyIntOpt ppkg) then
    { text := modifyMissingFieldMsg, adapterCalled := false, db := db }
  else
    match update_customer db cid name email age ppkg with
    | (Option.none, db') =>
      { text := "Failed to update customer with ID: " ++ toString cid
          ++ ". Customer may not exist."
        adapterCalled := true, db := db' }
    | (some c, db') =>
      { text := updatedCustomerBlock c, adapterCalled := true, db := db' }

/-- The success block of `create_customer` (server.py lines 96-103). -/
def createdCustomerBlock (c : Customer) : String :=
  pyDedent ("\n" ++ "    Customer created successfully:"
    ++ "\n" ++ "    ID: " ++ toString c.id
    ++ "\n" ++ "    Name: " ++ pyShowOptStr c.name
    ++ "\n" ++ "    Email: " ++ pyShowOptStr c.email
    ++ "\n" ++ "    Age: " ++ pyShowOptInt c.age
    ++ "\n" ++ "    Prefer Package: " ++ pyShowOptInt c.prefer_package
    ++ "\n" ++ "    ")

/-- Result of `create_customer`, instrumented with the exact argument tuple
passed to `add_customer` (`Option.none` when the insert adapter was never
invoked, i.e. no database call was made). -/
structure CreateResult where
  text : String
  insertCall : Option (String × String × Option Int × Option Int)
  db : List Customer
  deriving DecidableEq, Repr

/-- The missing-field error text of `create_customer`. -/
def createMissingFieldMsg : String :=
  "Error: Customer name and email are required."

/-- server.py `create_customer`: `if not name or not email` returns the error
text before any adapter call; otherwise `add_customer(name, email, age,
prefer_package)` is invoked with the optional fields passed through verbatim
(absent stays absent). -/
def create_customer (db : List Customer) (name email : Option String)
    (age ppkg : Option Int) : CreateResult :=
  if !(pyTruthyStrOpt name) || !(pyTruthyStrOpt email) then
    { text := createMissingFieldMsg, insertCall := Option.none, db := db }
  else
    match name, email with
    | some n, some e =>
      (match add_customer db n e age ppkg with
       | (some c, db') =>
         { text := createdCustomerBlock c, insertCall := some (n, e, age, ppkg),
           db := db' }
       | (Option.none, db') =>
         { text := "Failed to create customer. Please check database connection and try again."
           insertCall := some (n, e, age, ppkg), db := db' })
    | _, _ =>
      -- unreachable: the truthiness guard above already returned for an
      -- absent name or email
      { text := createMissingFieldMsg, insertCall := Option.none, db := db }

/-! ## External call adapter and weather tools
(`api_helpers.py`, `server.py` lines 176-249) -/

/-- A parsed JSON value (the payloads the NWS API returns). -/
inductive JVal where
  | str (s : String)
  | num (n : Int)
  | arr (xs : List JVal)
  | obj (fields : List (String × JVal))
  deriving Repr

/-- A parsed JSON object, which is what `make_nws_request`'s annotation
`dict[str, Any] | None` says a successful response body is. -/
abbrev JDict := List (String × JVal)

/-- Key lookup in a JSON object. -/
def dlookupJ (d : JDict) (k : String) : Option JVal :=
  (d.find? (fun kv => kv.1 == k)).map (·.2)

/-- The Python exceptions the weather code can raise or catch. -/
inductive PyErr where
  | keyError (k : String)
  | typeError
  | attributeError
  | httpStatusError (status : Nat)
  | requestError
  | jsonDecodeError
  deriving DecidableEq, Repr

/-- One outbound GET, seen from the adapter: either the transport layer
failed (connection error / timeout, `httpx.RequestError`), or a response
arrived with a status code and a body that either parses to JSON
(`some v`) or not (`Option.none`, raising `json.JSONDecodeError`). -/
inductive HttpOutcome where
  | transportError
  | response (status : Nat) (body : Option JVal)

/-- `httpx.Response.raise_for_status`: raises `httpx.HTTPStatusError` unless
the status is a success (2xx). -/
def raiseForStatus (s : Nat) : Except PyErr Unit :=
  if 200 ≤ s ∧ s < 300 then Except.ok () else Except.error (PyErr.httpStatusError s)

/-- `response.json()`: the parsed body, or `json.JSONDecodeError`. -/
def parseJsonBody (b : Option JVal) : Except PyErr JVal :=
  match b with
  | some v => Except.ok v
  | Option.none => Except.error PyErr.jsonDecodeError

/-- The `try` body of `make_nws_request`: perform the GET, raise for a
non-success status, parse the body. -/
def nwsRequestBody (o : HttpOutcome) : Except PyErr JVal :=
  match o with
  | HttpOutcome.transportError => Except.error PyErr.requestError
  | HttpOutcome.response s b =>
    match raiseForStatus s with
    | Except.error e => Except.error e
    | Except.ok _ => parseJsonBody b

/-- api_helpers.make_nws_request: every exception class raised inside the
`try` body (`HTTPStatusError`, `RequestError`, `JSONDecodeError`, and the
catch-all `Exception`) has a handler that returns `None`; a successful
parse returns the data. -/
def make_nws_request (o : HttpOutcome) : Option JVal :=
  match nwsRequestBody o with
  | Except.ok d => some d
  | Except.error _ => Option.none

/-- Python truthiness of a JSON value (`if not data` style checks):
`0`, `""`, `[]` and an empty dict are falsy. -/
def jTruthy : JVal → Bool
  | JVal.str s => s != ""
  | JVal.num n => n != 0
  | JVal.arr xs => !xs.isEmpty
  | JVal.obj fs => !fs.isEmpty

/-- Python `repr` of a string for rendering nested structures; CPython
prefers single quotes, switching to double quotes when the string contains
a single quote but no double quote.  (Escaping of quotes, backslashes and
control characters inside the string is not modelled; no claim inspects
the repr of nested structures.) -/
def pyStrRepr (s : String) : String :=
  if s.data.contains (Char.ofNat 39) && !(s.data.contains (Char.ofNat 34)) then
    String.singleton (Char.ofNat 34) ++ s ++ String.singleton (Char.ofNat 34)
  else
    String.singleton (Char.ofNat 39) ++ s ++ String.singleton (Char.ofNat 39)

mutual

/-- Python `str()` of a parsed JSON value as interpolated by an f-string:
strings print as-is, numbers in decimal, lists and dicts via `repr`. -/
def jpystr : JVal → String
  | JVal.str s => s
  | JVal.num n => toString n
  | JVal.arr xs => "[" ++ jreprSeq xs ++ "]"
  | JVal.obj fs => "\x7b" ++ jreprFields fs ++ "\x7d"

/-- Python `repr()` of a parsed JSON value (used inside containers). -/
def jrepr : JVal → String
  | JVal.str s => pyStrRepr s
  | JVal.num n => toString n
  | JVal.arr xs => "[" ++ jreprSeq xs ++ "]"
  | JVal.obj fs => "\x7b" ++ jreprFields fs ++ "\x7d"

/-- `", "`-separated reprs of list elements. -/
def jreprSeq : List JVal → String
  | [] => ""
  | [x] => jrepr x
  | x :: xs => jrepr x ++ ", " ++ jreprSeq xs

/-- `", "`-separated `key: value` reprs of dict entries. -/
def jreprFields : List (String × JVal) → String
  | [] => ""
  | [kv] => pyStrRepr kv.1 ++ ": " ++ jrepr kv.2
  | kv :: kvs => pyStrRepr kv.1 ++ ": " ++ jrepr kv.2 ++ ", " ++ jreprFields kvs

end

/-- Python `d[k]` on a dict: the value, or `KeyError` when absent. -/
def dictSub (d : JDict) (k : String) : Except PyErr JVal :=
  match dlookupJ d k with
  | some v => Except.ok v
  | Option.none => Except.error (PyErr.keyError k)

/-- Python `v[k]` with a string key on an arbitrary value: dict lookup for a
dict, `TypeError` for a list, string or number. -/
def jSub (v : JVal) (k : String) : Except PyErr JVal :=
  match v with
  | JVal.obj fs => dictSub fs k
  | _ => Except.error PyErr.typeError

/-- Python `v.get(k, default)` where the default is a string: works on a
dict (`AttributeError` otherwise); the result is rendered by the f-string's
`str()`. -/
def jGetAttrD (v : JVal) (k dflt : String) : Except PyErr String :=
  match v with
  | JVal.obj fs =>
    Except.ok (match dlookupJ fs k with
               | some x => jpystr x
               | Option.none => dflt)
  | _ => Except.error PyErr.attributeError

/-- Python `v[:5]`: a list or string slices; slicing a dict or number raises
`TypeError`. -/
def jSlice5 (v : JVal) : Except PyErr JVal :=
  match v with
  | JVal.arr xs => Except.ok (JVal.arr (xs.take 5))
  | JVal.str s => Except.ok (JVal.str (String.mk (s.data.take 5)))
  | _ => Except.error PyErr.typeError

/-- Python `for x in v`: a list yields its elements, a string its
characters, a dict its keys; a number raises `TypeError`. -/
def jIterate (v : JVal) : Except PyErr (List JVal) :=
  match v with
  | JVal.arr xs => Except.ok xs
  | JVal.str s => Except.ok (s.data.map (fun ch => JVal.str (String.mk [ch])))
  | JVal.obj fs => Except.ok (fs.map (fun kv => JVal.str kv.1))
  | _ => Except.error PyErr.typeError

/-- api_helpers.format_alert: `feature["properties"]` is an unguarded
subscript; the five fields are then read with `.get` and defaults and
rendered through `dedent` (8-space template indent). -/
def format_alert (feature : JVal) : Except PyErr String :=
  match jSub feature "properties" with
  | Except.error e => Except.error e
  | Except.ok props =>
    match jGetAttrD props "event" "Unknown" with
    | Except.error e => Except.error e
    | Except.ok ev =>
      match jGetAttrD props "areaDesc" "Unknown" with
      | Except.error e => Except.error e
      | Except.ok area =>
        match jGetAttrD props "severity" "Unknown" with
        | Except.error e => Except.error e
        | Except.ok sev =>
          match jGetAttrD props "description" "No description available" with
          | Except.error e => Except.error e
          | Except.ok desc =>
            match jGetAttrD props "instruction" "No specific instructions provided" with
            | Except.error e => Except.error e
            | Except.ok ins =>
              Except.ok (pyDedent ("\n" ++ "        Event: " ++ ev
                ++ "\n" ++ "        Area: " ++ area
                ++ "\n" ++ "        Severity: " ++ sev
                ++ "\n" ++ "        Description: " ++ desc
                ++ "\n" ++ "        Instructions: " ++ ins
                ++ "\n" ++ "        "))

/-- The list comprehension `[format_alert(feature) for feature in
data["features"]]`: formats in order; an exception inside propagates. -/
def alertsLoop : List JVal → Except PyErr (List String)
  | [] => Except.ok []
  | f :: rest =>
    match format_alert f with
    | Except.error e => Except.error e
    | Except.ok a =>
      match alertsLoop rest with
      | Except.error e => Except.error e
      | Except.ok rs => Except.ok (a :: rs)

/-- The fixed failure message of `get_alerts`. -/
def unableAlertsMsg : String := "Unable to fetch alerts or no alerts found."

/-- The fixed empty-feature-list message of `get_alerts`. -/
def noActiveAlertsMsg : String := "No active alerts for this state."

/-- server.py `get_alerts`: the upstream response (`make_nws_request`
result) is the oracle input.  `if not data or "features" not in data`
yields the unable-to-fetch text; `if not data["features"]` yields the
no-active-alerts text; otherwise the formatted alerts join with
`"\n---\n"`. -/
def get_alerts (resp : Option JDict) : Except PyErr String :=
  match resp with
  | Option.none => Except.ok unableAlertsMsg
  | some data =>
    if data.isEmpty then Except.ok unableAlertsMsg
    else
      match dlookupJ data "features" with
      | Option.none => Except.ok unableAlertsMsg
      | some fv =>
        if !jTruthy fv then Except.ok noActiveAlertsMsg
        else
          match jIterate fv with
          | Except.error e => Except.error e
          | Except.ok fs =>
            match alertsLoop fs with
            | Except.error e => Except.error e
            | Except.ok alerts => Except.ok (String.intercalate "\n---\n" alerts)

/-- The f-string block for one forecast period (server.py lines 239-246,
12-space template indent; the source file renders the degree sign as the
two characters `Â°`). -/
def formatPeriod (p : JVal) : Except PyErr String :=
  match jSub p "name" with
  | Except.error e => Except.error e
  | Except.ok nm =>
    match jSub p "temperature" with
    | Except.error e => Except.error e
    | Except.ok temp =>
      match jSub p "temperatureUnit" with
      | Except.error e => Except.error e
      | Except.ok tunit =>
        match jSub p "windSpeed" with
        | Except.error e => Except.error e
        | Except.ok wspd =>
          match jSub p "windDirection" with
          | Except.error e => Except.error e
          | Except.ok wdir =>
            match jSub p "detailedForecast" with
            | Except.error e => Except.error e
            | Except.ok det =>
              Except.ok (pyDedent ("\n" ++ "            " ++ jpystr nm ++ ":"
                ++ "\n" ++ "            Temperature: " ++ jpystr temp ++ "\xC2\xB0" ++ jpystr tunit
                ++ "\n" ++ "            Wind: " ++ jpystr wspd ++ " " ++ jpystr wdir
                ++ "\n" ++ "            Forecast: " ++ jpystr det
                ++ "\n" ++ "            "))

/-- The `for period in periods[:5]` loop body: append the formatted block;
an exception inside propagates. -/
def forecastLoop : List JVal → Except PyErr (List String)
  | [] => Except.ok []
  | q :: rest =>
    match formatPeriod q with
    | Except.error e => Except.error e
    | Except.ok b =>
      match forecastLoop rest with
      | Except.error e => Except.error e
      | Except.ok bs => Except.ok (b :: bs)

/-- The fixed points-request failure message of `get_forecast`. -/
def unableForecastMsg : String := "Unable to fetch forecast data for this location."

/-- The fixed forecast-request failure message of `get_forecast`. -/
def unableDetailedMsg : String := "Unable to fetch detailed forecast."

/-- server.py `get_forecast`: the two upstream responses (points request and
forecast request) are oracle inputs.  `if not points_data` /
`if not forecast_data` convert the adapter's `None` sentinel into fixed
texts, but `points_data["properties"]["forecast"]` and
`forecast_data["properties"]["periods"]` are unguarded subscripts whose
`KeyError`/`TypeError` propagates; the first 5 periods are formatted and
joined with `"\n---\n"`. -/
def get_forecast (pointsResp forecastResp : Option JDict) : Except PyErr String :=
  match pointsResp with
  | Option.none => Except.ok unableForecastMsg
  | some pd =>
    if pd.isEmpty then Except.ok unableForecastMsg
    else
      match dictSub pd "properties" with
      | Except.error e => Except.error e
      | Except.ok props =>
        match jSub props "forecast" with
        | Except.error e => Except.error e
        | Except.ok _forecastUrl =>
          match forecastResp with
          | Option.none => Except.ok unableDetailedMsg
          | some fd =>
            if fd.isEmpty then Except.ok unableDetailedMsg
            else
              match dictSub fd "properties" with
              | Except.error e => Except.error e
              | Except.ok fprops =>
                match jSub fprops "periods" with
                | Except.error e => Except.error e
                | Except.ok periodsV =>
                  match jSlice5 periodsV with
                  | Except.error e => Except.error e
                  | Except.ok sliced =>
                    match jIterate sliced with
                    | Except.error e => Except.error e
                    | Except.ok ps =>
                      match forecastLoop ps with
                      | Except.error e => Except.error e
                      | Except.ok blocks =>
                        Except.ok (String.intercalate "\n---\n" blocks)

/-! ## Helper lemmas -/

/-- If the merge keeps the current value (`x is None`, or the supplied value
equals the current one), `pyCoalesce` returns the current value. -/
lemma pyCoalesce_eq_cur {α : Type} (x cur : Option α)
    (h : x = Option.none ∨ x = cur) : pyCoalesce x cur = cur := by
  rcases h with h | h
  · subst h; rfl
  · subst h; cases x <;> rfl

/-- After `UPDATE ... WHERE id = $4` rewrites every matching row to `m`
(with `m.id = cid`), looking the id up again finds `m`, provided a row with
that id existed before. -/
lemma findCustomer_map_update (db : List Customer) (cid : Int) (m : Customer)
    (hm : m.id = cid) :
    ∀ c : Customer, findCustomer db cid = some c →
      findCustomer (db.map (fun r => if r.id == cid then m else r)) cid = some m := by
  induction db with
  | nil => intro c h; simp [findCustomer] at h
  | cons x xs ih =>
    intro c h
    by_cases hx : x.id = cid
    · simp [findCustomer, List.find?_cons, hx, hm]
    · have h1 : findCustomer xs cid = some c := by
        simpa [findCustomer, List.find?_cons, hx] using h
      simpa [findCustomer, List.find?_cons, hx] using ih c h1

/-! ## Claim C1 -/

/-- C1: the claim states that `delete_customer` returns true iff the
database reports at least one affected row, and in particular that deleting
a non-existent identifier returns false.  The code instead tests
`'DELETE' in result`, and asyncpg's status string for a no-op delete is
`"DELETE 0"`, which still contains `'DELETE'`: on a store with no row of
id 999 the delete affects 0 rows yet the function returns `true`,
contradicting the claim (and the source's own `# Check if any rows were
affected` comment and its failure log in the `else` branch). -/
theorem c1_delete_returns_true_with_zero_affected_rows :
    affectedRows [] 999 = 0
    ∧ pgDeleteStatus [] 999 = "DELETE 0"
    ∧ (delete_customer [] 999).1 = true := by
  decide

/-! ## Claim C5 -/

/-- C5: `update_customer` of a missing identifier returns the not-found
outcome (and leaves the store unchanged); for a found record it returns a
merged record `m`, written back to the store, in which every field not
supplied in the request is bit-identical to the pre-update value. -/
theorem c5_update_merge_preserves_unsupplied
    (db : List Customer) (cid : Int) (name email : Option String)
    (age ppkg : Option Int) :
    (findCustomer db cid = Option.none →
      update_customer db cid name email age ppkg = (Option.none, db))
    ∧ (∀ c : Customer, findCustomer db cid = some c →
        ∃ m : Customer,
          (update_customer db cid name email age ppkg).1 = some m
          ∧ findCustomer (update_customer db cid name email age ppkg).2 cid = some m
          ∧ (name = Option.none → m.name = c.name)
          ∧ (email = Option.none → m.email = c.email)
          ∧ (age = Option.none → m.age = c.age)
          ∧ (ppkg = Option.none → m.prefer_package = c.prefer_package)) := by
  constructor
  · intro h
    simp [update_customer, h]
  · intro c hc
    have hcid : c.id = cid := by
      have := List.find?_some hc
      simpa using this
    refine ⟨{ id := c.id,
              name := pyCoalesce name c.name,
              email := pyCoalesce email c.email,
              age := pyCoalesce age c.age,
              prefer_package := pyCoalesce ppkg c.prefer_package },
            ?_, ?_, ?_, ?_, ?_, ?_⟩
    · simp [update_customer, hc]
    · simp only [update_customer, hc]
      exact findCustomer_map_update db cid _ (by simpa using hcid) c hc
    · intro h; subst h; rfl
    · intro h; subst h; rfl
    · intro h; subst h; rfl
    · intro h; subst h; rfl

/-- Witness for C5 at a concrete store: update customer 1 supplying only
the email; name, age and prefer_package keep their pre-update values. -/
theorem c5_witness :
    ∃ m : Customer,
      (update_customer [{ id := 1, name := some "Anna", email := some "a@x.y",
                          age := some 30, prefer_package := Option.none }]
          1 Option.none (some "new@x.y") Option.none Option.none).1 = some m
      ∧ findCustomer
          (update_customer [{ id := 1, name := some "Anna", email := some "a@x.y",
                              age := some 30, prefer_package := Option.none }]
              1 Option.none (some "new@x.y") Option.none Option.none).2 1 = some m
      ∧ (Option.none = (Option.none : Option String) →
          m.name = some "Anna")
      ∧ ((some "new@x.y" : Option String) = Option.none →
          m.email = some "a@x.y")
      ∧ (Option.none = (Option.none : Option Int) → m.age = some 30)
      ∧ (Option.none = (Option.none : Option Int) →
          m.prefer_package = Option.none) := by
  exact (c5_update_merge_preserves_unsupplied _ 1 Option.none (some "new@x.y")
    Option.none Option.none).2
    { id := 1, name := some "Anna", email := some "a@x.y",
      age := some 30, prefer_package := Option.none } (by decide)

/-! ## Claim C6 -/

/-- C6 counterexample: the claim states that supplying any optional field —
including the integer 0 — makes the dispatcher forward to the update
adapter.  But `if not any([name, email, age, prefer_package])` uses Python
truthiness, so a request supplying only `age = 0` gets the missing-field
error text and the adapter is never invoked. -/
theorem c6_supplied_zero_is_treated_as_missing :
    (modify_customer [] 1 Option.none Option.none (some 0) Option.none).adapterCalled
        = false
    ∧ (modify_customer [] 1 Option.none Option.none (some 0) Option.none).text
        = modifyMissingFieldMsg := by
  decide

/-- C6 amended: the dispatcher forwards the call to the update adapter
exactly when at least one supplied optional field is Python-truthy (a
non-empty string or a non-zero integer); a request whose only supplied
values are falsy (`0` or `""`) gets the missing-field error instead. -/
theorem c6_adapter_called_iff_some_field_truthy
    (db : List Customer) (cid : Int) (name email : Option String)
    (age ppkg : Option Int) :
    (modify_customer db cid name email age ppkg).adapterCalled
      = (pyTruthyStrOpt name || pyTruthyStrOpt email
         || pyTruthyIntOpt age || pyTruthyIntOpt ppkg) := by
  by_cases h : (pyTruthyStrOpt name || pyTruthyStrOpt email
      || pyTruthyIntOpt age || pyTruthyIntOpt ppkg) = true
  · rw [h]
    simp only [modify_customer, h, Bool.not_true, Bool.false_eq_true,
      if_false]
    rcases hres : update_customer db cid name email age ppkg with ⟨o, db2⟩
    cases o <;> simp
  · have h' : (pyTruthyStrOpt name || pyTruthyStrOpt email
        || pyTruthyIntOpt age || pyTruthyIntOpt ppkg) = false := by
      simpa using h
    rw [h']
    simp [modify_customer, h']

/-! ## Claim C7 -/

/-- C7: an update of an existing customer that changes no fields — every
argument either not supplied or equal to the current value — returns a
record identical to the pre-update record. -/
theorem c7_noop_update_returns_identical_record
    (db : List Customer) (cid : Int) (c : Customer)
    (name email : Option String) (age ppkg : Option Int)
    (hfind : findCustomer db cid = some c)
    (hn : name = Option.none ∨ name = c.name)
    (he : email = Option.none ∨ email = c.email)
    (ha : age = Option.none ∨ age = c.age)
    (hp : ppkg = Option.none ∨ ppkg = c.prefer_package) :
    (update_customer db cid name email age ppkg).1 = some c := by
  simp only [update_customer, hfind]
  rw [pyCoalesce_eq_cur _ _ hn, pyCoalesce_eq_cur _ _ he,
    pyCoalesce_eq_cur _ _ ha, pyCoalesce_eq_cur _ _ hp]

/-- Witness for C7: an all-fields-unsupplied update of an existing record
returns that record unchanged. -/
theorem c7_witness :
    (update_customer [{ id := 2, name := some "Susan", email := some "s@x.y",
                        age := Option.none, prefer_package := some 3 }]
        2 Option.none Option.none Option.none Option.none).1
      = some { id := 2, name := some "Susan", email := some "s@x.y",
               age := Option.none, prefer_package := some 3 } := by
  exact c7_noop_update_returns_identical_record _ 2 _ _ _ _ _ (by decide)
    (Or.inl rfl) (Or.inl rfl) (Or.inl rfl) (Or.inl rfl)

/-! ## Claim C10 -/

/-- C10: a create request with an empty or absent name or email returns the
error text and never invokes the insert adapter (no database call, store
unchanged); with both non-empty the insert adapter is invoked with exactly
the given name/email and the optional fields passed through verbatim, so
age and prefer_package are stored as absent when not supplied. -/
theorem c10_create_guard_and_insert
    (db : List Customer) (name email : Option String) (age ppkg : Option Int) :
    ((pyTruthyStrOpt name = false ∨ pyTruthyStrOpt email = false) →
      create_customer db name email age ppkg
        = { text := createMissingFieldMsg, insertCall := Option.none, db := db })
    ∧ (∀ n e : String, name = some n → email = some e → n ≠ "" → e ≠ "" →
        ∃ c : Customer,
          create_customer db name email age ppkg
            = { text := createdCustomerBlock c,
                insertCall := some (n, e, age, ppkg), db := db ++ [c] }
          ∧ c.name = some n ∧ c.email = some e
          ∧ c.age = age ∧ c.prefer_package = ppkg) := by
  constructor
  · intro h
    rcases h with h | h <;> simp [create_customer, h]
  · intro n e hn he hne hee
    subst hn; subst he
    have htn : pyTruthyStrOpt (some n) = true := by
      simp [pyTruthyStrOpt, hne]
    have hte : pyTruthyStrOpt (some e) = true := by
      simp [pyTruthyStrOpt, hee]
    refine ⟨{ id := (db.map (·.id)).foldl max 0 + 1, name := some n,
              email := some e, age := age, prefer_package := ppkg },
            ?_, rfl, rfl, rfl, rfl⟩
    simp [create_customer, add_customer, htn, hte]

/-- Witness for C10: both branches at concrete inputs — an absent email is
rejected without an insert call, and a valid pair is inserted with the
optional fields absent. -/
theorem c10_witness :
    (create_customer [] (some "Ann") Option.none Option.none Option.none
      = { text := createMissingFieldMsg, insertCall := Option.none, db := [] })
    ∧ ∃ c : Customer,
        create_customer [] (some "Ann") (some "ann@x.y") Option.none Option.none
          = { text := createdCustomerBlock c,
              insertCall := some ("Ann", "ann@x.y", Option.none, Option.none),
              db := [] ++ [c] }
        ∧ c.name = some "Ann" ∧ c.email = some "ann@x.y"
        ∧ c.age = Option.none ∧ c.prefer_package = Option.none := by
  constructor
  · exact (c10_create_guard_and_insert [] (some "Ann") Option.none
      Option.none Option.none).1 (Or.inr rfl)
  · exact (c10_create_guard_and_insert [] (some "Ann") (some "ann@x.y")
      Option.none Option.none).2 "Ann" "ann@x.y" rfl rfl
      (by decide) (by decide)

/-! ## Claim C4 -/

/-- C4: `make_nws_request` returns the parsed body exactly on a 2xx
response with a parseable body, and returns the `None` sentinel — never an
exception, since every handler in the source returns `None` — on a non-2xx
status, a transport failure, or an unparseable body. -/
theorem c4_make_nws_request_contract (o : HttpOutcome) :
    (∀ (s : Nat) (v : JVal), o = HttpOutcome.response s (some v) →
      200 ≤ s → s < 300 → make_nws_request o = some v)
    ∧ (∀ (s : Nat) (b : Option JVal), o = HttpOutcome.response s b →
        ¬(200 ≤ s ∧ s < 300) → make_nws_request o = Option.none)
    ∧ (o = HttpOutcome.transportError → make_nws_request o = Option.none)
    ∧ (∀ s : Nat, o = HttpOutcome.response s Option.none →
        make_nws_request o = Option.none) := by
  refine ⟨?_, ?_, ?_, ?_⟩
  · intro s v h h1 h2
    subst h
    simp [make_nws_request, nwsRequestBody, raiseForStatus, parseJsonBody,
      h1, h2]
  · intro s b h hs
    subst h
    simp [make_nws_request, nwsRequestBody, raiseForStatus, hs]
  · intro h
    subst h
    rfl
  · intro s h
    subst h
    simp only [make_nws_request, nwsRequestBody, raiseForStatus, parseJsonBody]
    by_cases hs : 200 ≤ s ∧ s < 300 <;> simp [hs]

/-- Witness for C4: the four outcomes at concrete responses. -/
theorem c4_witness :
    make_nws_request (HttpOutcome.response 200 (some (JVal.num 7)))
        = some (JVal.num 7)
    ∧ make_nws_request (HttpOutcome.response 404 (some (JVal.num 7)))
        = Option.none
    ∧ make_nws_request HttpOutcome.transportError = Option.none
    ∧ make_nws_request (HttpOutcome.response 200 Option.none) = Option.none := by
  refine ⟨?_, ?_, ?_, ?_⟩
  · exact (c4_make_nws_request_contract _).1 200 _ rfl (by decide) (by decide)
  · exact (c4_make_nws_request_contract _).2.1 404 _ rfl (by decide)
  · exact (c4_make_nws_request_contract _).2.2.1 rfl
  · exact (c4_make_nws_request_contract _).2.2.2 200 rfl

/-! ## Claim C8 -/

/-- C8: `get_alerts` returns the fixed no-active-alerts message when the
upstream call succeeds with an empty feature list, the fixed
unable-to-fetch message when the upstream call fails (the adapter's `None`
sentinel), and the two messages are distinct strings. -/
theorem c8_alert_messages (resp : Option JDict) :
    (resp = Option.none → get_alerts resp = Except.ok unableAlertsMsg)
    ∧ (∀ d : JDict, resp = some d →
        dlookupJ d "features" = some (JVal.arr []) →
        get_alerts resp = Except.ok noActiveAlertsMsg)
    ∧ unableAlertsMsg ≠ noActiveAlertsMsg := by
  refine ⟨?_, ?_, ?_⟩
  · intro h; subst h; rfl
  · intro d h hf
    subst h
    have hne : d.isEmpty = false := by
      cases d with
      | nil => simp [dlookupJ] at hf
      | cons kv rest => rfl
    simp [get_alerts, hne, hf, jTruthy]
  · decide

/-- Witness for C8: the two messages at concrete upstream responses. -/
theorem c8_witness :
    get_alerts Option.none = Except.ok unableAlertsMsg
    ∧ get_alerts (some [("features", JVal.arr [])])
        = Except.ok noActiveAlertsMsg
    ∧ unableAlertsMsg ≠ noActiveAlertsMsg := by
  refine ⟨?_, ?_, ?_⟩
  · exact (c8_alert_messages Option.none).1 rfl
  · exact (c8_alert_messages _).2.1 [("features", JVal.arr [])] rfl rfl
  · exact (c8_alert_messages Option.none).2.2

/-! ## Claims C3 and C9 -/

/-- A forecast period object carrying all six keys the f-string reads. -/
def wellFormedPeriod (p : JVal) : Bool :=
  match p with
  | JVal.obj fs =>
    (dlookupJ fs "name").isSome && (dlookupJ fs "temperature").isSome
      && (dlookupJ fs "temperatureUnit").isSome
      && (dlookupJ fs "windSpeed").isSome
      && (dlookupJ fs "windDirection").isSome
      && (dlookupJ fs "detailedForecast").isSome
  | _ => false

/-- Formatting a period with all six keys present succeeds. -/
lemma formatPeriod_isOk_of_wf (p : JVal) (h : wellFormedPeriod p = true) :
    (formatPeriod p).isOk = true := by
  cases p with
  | str s => simp [wellFormedPeriod] at h
  | num n => simp [wellFormedPeriod] at h
  | arr xs => simp [wellFormedPeriod] at h
  | obj fs =>
    rcases h1 : dlookupJ fs "name" with _ | v1
    · simp [wellFormedPeriod, h1] at h
    rcases h2 : dlookupJ fs "temperature" with _ | v2
    · simp [wellFormedPeriod, h2] at h
    rcases h3 : dlookupJ fs "temperatureUnit" with _ | v3
    · simp [wellFormedPeriod, h3] at h
    rcases h4 : dlookupJ fs "windSpeed" with _ | v4
    · simp [wellFormedPeriod, h4] at h
    rcases h5 : dlookupJ fs "windDirection" with _ | v5
    · simp [wellFormedPeriod, h5] at h
    rcases h6 : dlookupJ fs "detailedForecast" with _ | v6
    · simp [wellFormedPeriod, h6] at h
    simp only [formatPeriod, jSub, dictSub, h1, h2, h3, h4, h5, h6]
    rfl

/-- The forecast loop on well-formed periods returns, in order, one block
per period. -/
lemma forecastLoop_ok_of_wf :
    ∀ l : List JVal, (∀ p ∈ l, wellFormedPeriod p = true) →
      ∃ bs : List String, forecastLoop l = Except.ok bs
        ∧ bs.length = l.length
        ∧ ∀ i : Nat, i < l.length →
            ∃ q : JVal, l.get? i = some q
              ∧ formatPeriod q = Except.ok ((bs.get? i).getD "")
  | [], _ => ⟨[], rfl, rfl, by intro i hi; simp at hi⟩
  | p :: rest, h => by
    have hok := formatPeriod_isOk_of_wf p (h p (List.mem_cons_self p rest))
    rcases hs : formatPeriod p with e | s
    · rw [hs] at hok; simp [Except.isOk, Except.toBool] at hok
    obtain ⟨bs, hbs, hlen, hidx⟩ := forecastLoop_ok_of_wf rest
      (fun q hq => h q (List.mem_cons_of_mem _ hq))
    refine ⟨s :: bs, ?_, ?_, ?_⟩
    · simp [forecastLoop, hs, hbs]
    · simp [hlen]
    · intro i hi
      cases i with
      | zero => exact ⟨p, rfl, by simpa using hs⟩
      | succ j =>
        have hj : j < rest.length := by simpa using hi
        obtain ⟨q, hq1, hq2⟩ := hidx j hj
        exact ⟨q, by simpa using hq1, by simpa using hq2⟩

/-- `get_forecast` on responses that pass all the truthiness checks and
subscripts reduces to the formatting loop over the first 5 periods. -/
lemma get_forecast_success
    (pd fd pr fp : JDict) (u : JVal) (ps : List JVal)
    (hpe : pd.isEmpty = false)
    (hprops : dlookupJ pd "properties" = some (JVal.obj pr))
    (hfu : dlookupJ pr "forecast" = some u)
    (hfe : fd.isEmpty = false)
    (hfprops : dlookupJ fd "properties" = some (JVal.obj fp))
    (hper : dlookupJ fp "periods" = some (JVal.arr ps)) :
    get_forecast (some pd) (some fd) =
      match forecastLoop (ps.take 5) with
      | Except.error e => Except.error e
      | Except.ok blocks => Except.ok (String.intercalate "\n---\n" blocks) := by
  simp [get_forecast, hpe, hfe, dictSub, jSub, hprops, hfu, hfprops, hper,
    jSlice5, jIterate]

/-- C3 counterexample: the claim states no exception propagates for any
upstream response, including a 2xx body lacking expected keys.  But a
truthy points body without `"properties"` makes
`points_data["properties"]` raise a `KeyError` that leaves the tool
handler uncaught. -/
theorem c3_keyerror_escapes_tool_handler :
    get_forecast (some [("foo", JVal.num 1)]) Option.none
      = Except.error (PyErr.keyError "properties") := rfl

/-- A points body carrying `properties.forecast`. -/
def goodPointsDict (pd : JDict) : Bool :=
  match dlookupJ pd "properties" with
  | some (JVal.obj pr) => (dlookupJ pr "forecast").isSome
  | _ => false

/-- A points response that cannot make `get_forecast` raise: the adapter
sentinel, a falsy body, or a body carrying `properties.forecast`. -/
def goodPointsResp : Option JDict → Bool
  | Option.none => true
  | some pd => pd.isEmpty || goodPointsDict pd

/-- A properties object whose `periods` is a list of well-formed periods. -/
def goodPeriods (fp : JDict) : Bool :=
  match dlookupJ fp "periods" with
  | some (JVal.arr ps) => ps.all wellFormedPeriod
  | _ => false

/-- A forecast body carrying `properties.periods` well-formed. -/
def goodForecastDict (fd : JDict) : Bool :=
  match dlookupJ fd "properties" with
  | some (JVal.obj fp) => goodPeriods fp
  | _ => false

/-- A forecast response that cannot make `get_forecast` raise: the adapter
sentinel, a falsy body, or a body carrying `properties.periods` as a list
of well-formed periods. -/
def goodForecastResp : Option JDict → Bool
  | Option.none => true
  | some fd => fd.isEmpty || goodForecastDict fd

/-- C3 amended: failures surfaced as the adapter's `None` sentinel, falsy
bodies, and well-shaped payloads are all converted to a text result — but
(per the counterexample) a truthy 2xx body lacking an expected key such as
`"properties"`, `"forecast"` or `"periods"` raises a `KeyError` that
propagates to the tool caller, in `get_forecast` as in `format_alert`. -/
theorem c3_sentinel_and_wellformed_yield_text
    (p f : Option JDict)
    (hp : goodPointsResp p = true) (hf : goodForecastResp f = true) :
    ∃ s : String, get_forecast p f = Except.ok s := by
  cases p with
  | none => exact ⟨unableForecastMsg, rfl⟩
  | some pd =>
    by_cases hpe : pd.isEmpty = true
    · exact ⟨unableForecastMsg, by simp [get_forecast, hpe]⟩
    · have hpe' : pd.isEmpty = false := by simpa using hpe
      have hp' : goodPointsDict pd = true := by
        simpa [goodPointsResp, hpe'] using hp
      unfold goodPointsDict at hp'
      rcases hprops : dlookupJ pd "properties" with _ | v
      · rw [hprops] at hp'; simp at hp'
      cases v with
      | str s => rw [hprops] at hp'; simp at hp'
      | num n => rw [hprops] at hp'; simp at hp'
      | arr xs => rw [hprops] at hp'; simp at hp'
      | obj pr =>
        rw [hprops] at hp'
        simp only [Option.isSome_iff_exists] at hp'
        obtain ⟨u, hfu⟩ := hp'
        cases f with
        | none =>
          exact ⟨unableDetailedMsg,
            by simp [get_forecast, hpe', dictSub, jSub, hprops, hfu]⟩
        | some fd =>
          by_cases hfe : fd.isEmpty = true
          · exact ⟨unableDetailedMsg,
              by simp [get_forecast, hpe', hfe, dictSub, jSub, hprops, hfu]⟩
          · have hfe' : fd.isEmpty = false := by simpa using hfe
            have hf' : goodForecastDict fd = true := by
              simpa [goodForecastResp, hfe'] using hf
            unfold goodForecastDict at hf'
            rcases hfprops : dlookupJ fd "properties" with _ | w
            · rw [hfprops] at hf'; simp at hf'
            cases w with
            | str s => rw [hfprops] at hf'; simp at hf'
            | num n => rw [hfprops] at hf'; simp at hf'
            | arr xs => rw [hfprops] at hf'; simp at hf'
            | obj fp =>
              rw [hfprops] at hf'
              simp only [goodPeriods] at hf'
              rcases hper : dlookupJ fp "periods" with _ | pv
              · rw [hper] at hf'; simp at hf'
              cases pv with
              | str s => rw [hper] at hf'; simp at hf'
              | num n => rw [hper] at hf'; simp at hf'
              | obj o => rw [hper] at hf'; simp at hf'
              | arr ps =>
                rw [hper] at hf'
                simp only [] at hf'
                have hwf : ∀ q ∈ ps.take 5, wellFormedPeriod q = true := by
                  intro q hq
                  have hall : ps.all wellFormedPeriod = true := by
                    simpa using hf'
                  exact List.all_eq_true.mp hall q (List.take_subset 5 ps hq)
                obtain ⟨bs, hbs, -, -⟩ := forecastLoop_ok_of_wf (ps.take 5) hwf
                refine ⟨String.intercalate "\n---\n" bs, ?_⟩
                rw [get_forecast_success pd fd pr fp u ps hpe' hprops hfu
                  hfe' hfprops hper, hbs]

/-- Witness for the amended C3: a well-keyed points body together with the
forecast-side adapter sentinel yields a text result. -/
theorem c3_witness :
    ∃ s : String,
      get_forecast
        (some [("properties", JVal.obj [("forecast", JVal.str "u")])])
        Option.none
      = Except.ok s := by
  exact c3_sentinel_and_wellformed_yield_text
    (some [("properties", JVal.obj [("forecast", JVal.str "u")])])
    Option.none rfl rfl

/-- C9: on a successful forecast payload (both bodies truthy and carrying
the expected keys, periods all well formed), `get_forecast` joins exactly
the blocks of the first 5 periods: at most 5 blocks, and the i-th block is
the formatted i-th period of the source sequence. -/
theorem c9_forecast_renders_first_five_periods
    (pd fd pr fp : JDict) (u : JVal) (ps : List JVal)
    (hpe : pd.isEmpty = false)
    (hprops : dlookupJ pd "properties" = some (JVal.obj pr))
    (hfu : dlookupJ pr "forecast" = some u)
    (hfe : fd.isEmpty = false)
    (hfprops : dlookupJ fd "properties" = some (JVal.obj fp))
    (hper : dlookupJ fp "periods" = some (JVal.arr ps))
    (hwf : ps.all wellFormedPeriod = true) :
    ∃ bs : List String,
      get_forecast (some pd) (some fd)
        = Except.ok (String.intercalate "\n---\n" bs)
      ∧ bs.length = min 5 ps.length
      ∧ ∀ i : Nat, i < bs.length →
          ∃ q : JVal, ps.get? i = some q
            ∧ formatPeriod q = Except.ok ((bs.get? i).getD "") := by
  have hwf5 : ∀ q ∈ ps.take 5, wellFormedPeriod q = true := by
    intro q hq
    exact List.all_eq_true.mp hwf q (List.take_subset 5 ps hq)
  obtain ⟨bs, hbs, hlen, hidx⟩ := forecastLoop_ok_of_wf (ps.take 5) hwf5
  refine ⟨bs, ?_, ?_, ?_⟩
  · rw [get_forecast_success pd fd pr fp u ps hpe hprops hfu hfe hfprops hper,
      hbs]
  · rw [hlen, List.length_take]
  · intro i hi
    have hi' : i < (ps.take 5).length := by rw [← hlen]; exact hi
    obtain ⟨q, hq1, hq2⟩ := hidx i hi'
    refine ⟨q, ?_, hq2⟩
    rw [← hq1]
    have h5 : i < 5 := by
      have := hi'
      rw [List.length_take] at this
      omega
    rw [List.get?_eq_getElem?, List.get?_eq_getElem?]
    exact (List.getElem?_take_of_lt h5).symm

/-- A concrete well-formed forecast period used by the C9 witness. -/
def periodW (nm : String) : JVal :=
  JVal.obj [("name", JVal.str nm), ("temperature", JVal.num 70),
    ("temperatureUnit", JVal.str "F"), ("windSpeed", JVal.str "5 mph"),
    ("windDirection", JVal.str "N"), ("detailedForecast", JVal.str "Clear")]

/-- The six-period source sequence of the C9 witness. -/
def c9Periods : List JVal :=
  [periodW "P1", periodW "P2", periodW "P3", periodW "P4", periodW "P5",
   periodW "P6"]

/-- Witness for C9: a payload with six periods renders `min 5 6 = 5`
blocks, each from the corresponding source period. -/
theorem c9_witness :
    ∃ bs : List String,
      get_forecast
        (some [("properties", JVal.obj [("forecast", JVal.str "u")])])
        (some [("properties", JVal.obj [("periods", JVal.arr c9Periods)])])
        = Except.ok (String.intercalate "\n---\n" bs)
      ∧ bs.length = min 5 c9Periods.length
      ∧ ∀ i : Nat, i < bs.length →
          ∃ q : JVal, c9Periods.get? i = some q
            ∧ formatPeriod q = Except.ok ((bs.get? i).getD "") := by
  exact c9_forecast_renders_first_five_periods
    [("properties", JVal.obj [("forecast", JVal.str "u")])]
    [("properties", JVal.obj [("periods", JVal.arr c9Periods)])]
    [("forecast", JVal.str "u")] [("periods", JVal.arr c9Periods)]
    (JVal.str "u") c9Periods rfl rfl rfl rfl rfl rfl rfl

/-! ## Claim C2: `splitNl` / `dedent` computation lemmas -/

/-- `splitNl` always produces at least one line. -/
lemma splitNl_ne_nil : ∀ cs : List Char, splitNl cs ≠ []
  | [] => by simp [splitNl]
  | c :: rest => by
    simp only [splitNl]
    by_cases h : c = '\n'
    · simp [h]
    · simp only [h, if_false]
      cases hr : splitNl rest <;> simp

/-- A leading newline opens an empty first line. -/
lemma splitNl_cons_nl (b : List Char) : splitNl ('\n' :: b) = [] :: splitNl b := by
  simp [splitNl]

/-- A newline-free segment followed by a newline is one whole line. -/
lemma splitNl_line (a b : List Char) (h : '\n' ∉ a) :
    splitNl (a ++ '\n' :: b) = a :: splitNl b := by
  induction a with
  | nil => simp [splitNl]
  | cons c a ih =>
    have hc : ¬c = '\n' := fun hh => h (by simp [hh])
    have ha : '\n' ∉ a := fun hm => h (List.mem_cons_of_mem _ hm)
    simp [List.cons_append, splitNl, hc, ih ha]

/-- A newline-free tail is a single final line. -/
lemma splitNl_no_nl (a : List Char) (h : '\n' ∉ a) : splitNl a = [a] := by
  induction a with
  | nil => rfl
  | cons c a ih =>
    have hc : ¬c = '\n' := fun hh => h (by simp [hh])
    have ha : '\n' ∉ a := fun hm => h (List.mem_cons_of_mem _ hm)
    simp [splitNl, hc, ih ha]

/-- A line of the shape (newline-free label) ++ (newline-free value) ++
newline ++ rest splits off as one line. -/
lemma splitNl_seg_line (a v b : List Char) (ha : '\n' ∉ a) (hv : '\n' ∉ v) :
    splitNl (a ++ (v ++ '\n' :: b)) = (a ++ v) :: splitNl b := by
  have hav : '\n' ∉ a ++ v := by
    intro hm
    rcases List.mem_append.mp hm with hm | hm
    · exact ha hm
    · exact hv hm
  rw [← List.append_assoc]
  exact splitNl_line (a ++ v) b hav

/-- `(a ++ b).data = a.data ++ b.data` for strings. -/
lemma strData_append (a b : String) : (a ++ b).data = a.data ++ b.data := rfl

/-- Two strings with the same character data are equal. -/
lemma strExt (a b : String) (h : a.data = b.data) : a = b := by
  cases a; cases b; cases h; rfl

/-- A line with a non-whitespace character is not normalized away. -/
lemma wsNormalize_content (a b : List Char) (ha : a.all isWsCh = false) :
    wsNormalize (a ++ b) = a ++ b := by
  simp [wsNormalize, List.all_append, ha]

/-- `takeWhile` on a cons, as an `if`. -/
lemma takeWhile_cons_eq (p : Char → Bool) (c : Char) (l : List Char) :
    (c :: l).takeWhile p = if p c then c :: l.takeWhile p else [] := by
  cases h : p c <;> simp [List.takeWhile, h]

/-- A suffix after a segment containing non-whitespace does not change the
leading indent. -/
lemma leadIndent_append (a b : List Char)
    (ha : a.any (fun c => !isWsCh c) = true) :
    leadIndent (a ++ b) = leadIndent a := by
  induction a with
  | nil => simp at ha
  | cons c a ih =>
    by_cases hc : isWsCh c = true
    · have ha' : a.any (fun c => !isWsCh c) = true := by
        simpa [List.any_cons, hc] using ha
      have ihh := ih ha'
      simp only [leadIndent] at ihh
      simp [leadIndent, List.cons_append, takeWhile_cons_eq, hc, ihh]
    · have hc' : isWsCh c = false := by simpa using hc
      simp [leadIndent, List.cons_append, takeWhile_cons_eq, hc']

/-- The four-space margin of the customer-details template. -/
def sp4 : List Char := [' ', ' ', ' ', ' ']

/-- Stripping the four-space margin from a line that starts with it. -/
lemma stripMargin_sp4 (x : List Char) : stripMargin sp4 (sp4 ++ x) = x := by
  simp [stripMargin, sp4, List.isPrefixOf, List.cons_append]

/-- A line with a non-whitespace character keeps satisfying the content
test after appending a suffix. -/
lemma hasContent_append_left (a b : List Char) (ha : hasContent a = true) :
    hasContent (a ++ b) = true := by
  unfold hasContent at ha ⊢
  rcases List.any_eq_true.mp ha with ⟨x, hx, hpx⟩
  exact List.any_eq_true.mpr ⟨x, List.mem_append_left _ hx, hpx⟩

/-- Unfolding `pyDedent` as an equation usable by `rw`. -/
lemma pyDedent_eq (s : String) :
    pyDedent s = String.mk (joinNl (dedentLines (splitNl s.data))) := rfl

/-- The data of a built string. -/
lemma strData_mk (l : List Char) : (String.mk l).data = l := rfl

/-- `textwrap.dedent` of the customer-details template with newline-free
interpolated values: the common four-space margin is stripped from every
line and the trailing whitespace-only line is emptied. -/
lemma dedent_customer_template (x1 x2 x3 : String)
    (h1 : '\n' ∉ x1.data) (h2 : '\n' ∉ x2.data) (h3 : '\n' ∉ x3.data) :
    pyDedent ("\n" ++ "    Customer Details:"
      ++ "\n" ++ "    ID: " ++ x1
      ++ "\n" ++ "    Name: " ++ x2
      ++ "\n" ++ "    Email: " ++ x3
      ++ "\n" ++ "    Age: " ++ "N/A"
      ++ "\n" ++ "    Prefer Package: " ++ "N/A"
      ++ "\n" ++ "    ")
    = "\n" ++ "Customer Details:"
      ++ "\n" ++ "ID: " ++ x1
      ++ "\n" ++ "Name: " ++ x2
      ++ "\n" ++ "Email: " ++ x3
      ++ "\n" ++ "Age: " ++ "N/A"
      ++ "\n" ++ "Prefer Package: " ++ "N/A"
      ++ "\n" := by
  apply strExt
  have hbody : ("\n" ++ "    Customer Details:"
      ++ "\n" ++ "    ID: " ++ x1
      ++ "\n" ++ "    Name: " ++ x2
      ++ "\n" ++ "    Email: " ++ x3
      ++ "\n" ++ "    Age: " ++ "N/A"
      ++ "\n" ++ "    Prefer Package: " ++ "N/A"
      ++ "\n" ++ "    " : String).data
      =
      '\n' :: (("    Customer Details:" : String).data
        ++ ('\n' :: (("    ID: " : String).data ++ (x1.data
        ++ ('\n' :: (("    Name: " : String).data ++ (x2.data
        ++ ('\n' :: (("    Email: " : String).data ++ (x3.data
        ++ ('\n' :: (("    Age: " : String).data ++ (("N/A" : String).data
        ++ ('\n' :: (("    Prefer Package: " : String).data ++ (("N/A" : String).data
        ++ ('\n' :: ("    " : String).data))))))))))))))))) := by
    simp [strData_append, List.append_assoc]
  rw [pyDedent_eq, strData_mk, hbody]
  rw [splitNl_cons_nl]
  rw [splitNl_line ("    Customer Details:" : String).data _ (by decide)]
  rw [splitNl_seg_line ("    ID: " : String).data x1.data _ (by decide) h1]
  rw [splitNl_seg_line ("    Name: " : String).data x2.data _ (by decide) h2]
  rw [splitNl_seg_line ("    Email: " : String).data x3.data _ (by decide) h3]
  rw [splitNl_seg_line ("    Age: " : String).data ("N/A" : String).data _
    (by decide) (by decide)]
  rw [splitNl_seg_line ("    Prefer Package: " : String).data
    ("N/A" : String).data _ (by decide) (by decide)]
  rw [splitNl_no_nl ("    " : String).data (by decide)]
  -- normalize whitespace-only lines
  have w0 : wsNormalize ([] : List Char) = [] := rfl
  have w1 : wsNormalize ("    Customer Details:" : String).data
      = ("    Customer Details:" : String).data := by decide
  have w2 := wsNormalize_content ("    ID: " : String).data x1.data (by decide)
  have w3 := wsNormalize_content ("    Name: " : String).data x2.data (by decide)
  have w4 := wsNormalize_content ("    Email: " : String).data x3.data (by decide)
  have w5 := wsNormalize_content ("    Age: " : String).data
    ("N/A" : String).data (by decide)
  have w6 := wsNormalize_content ("    Prefer Package: " : String).data
    ("N/A" : String).data (by decide)
  have w7 : wsNormalize ("    " : String).data = [] := by decide
  -- line content tests
  have hc0 : hasContent ([] : List Char) = false := rfl
  have hcL1 : hasContent ("    Customer Details:" : String).data = true := by decide
  have hc2 := hasContent_append_left ("    ID: " : String).data x1.data (by decide)
  have hc3 := hasContent_append_left ("    Name: " : String).data x2.data (by decide)
  have hc4 := hasContent_append_left ("    Email: " : String).data x3.data (by decide)
  have hc5 := hasContent_append_left ("    Age: " : String).data
    ("N/A" : String).data (by decide)
  have hc6 := hasContent_append_left ("    Prefer Package: " : String).data
    ("N/A" : String).data (by decide)
  -- leading indents
  have hl1 : leadIndent ("    Customer Details:" : String).data = sp4 := by decide
  have hl2 : leadIndent (("    ID: " : String).data ++ x1.data) = sp4 := by
    rw [leadIndent_append _ _ (by decide)]; decide
  have hl3 : leadIndent (("    Name: " : String).data ++ x2.data) = sp4 := by
    rw [leadIndent_append _ _ (by decide)]; decide
  have hl4 : leadIndent (("    Email: " : String).data ++ x3.data) = sp4 := by
    rw [leadIndent_append _ _ (by decide)]; decide
  have hl5 : leadIndent (("    Age: " : String).data ++ ("N/A" : String).data)
      = sp4 := by
    rw [leadIndent_append _ _ (by decide)]; decide
  have hl6 : leadIndent (("    Prefer Package: " : String).data
      ++ ("N/A" : String).data) = sp4 := by
    rw [leadIndent_append _ _ (by decide)]; decide
  -- margin stripping
  have hs0 : stripMargin sp4 ([] : List Char) = [] := by decide
  have hsL1 : stripMargin sp4 ("    Customer Details:" : String).data
      = ("Customer Details:" : String).data := by decide
  have hs2 : stripMargin sp4 (("    ID: " : String).data ++ x1.data)
      = ("ID: " : String).data ++ x1.data := by
    have h : ("    ID: " : String).data = sp4 ++ ("ID: " : String).data := by decide
    rw [h, List.append_assoc, stripMargin_sp4]
  have hs3 : stripMargin sp4 (("    Name: " : String).data ++ x2.data)
      = ("Name: " : String).data ++ x2.data := by
    have h : ("    Name: " : String).data = sp4 ++ ("Name: " : String).data := by
      decide
    rw [h, List.append_assoc, stripMargin_sp4]
  have hs4 : stripMargin sp4 (("    Email: " : String).data ++ x3.data)
      = ("Email: " : String).data ++ x3.data := by
    have h : ("    Email: " : String).data = sp4 ++ ("Email: " : String).data := by
      decide
    rw [h, List.append_assoc, stripMargin_sp4]
  have hs5 : stripMargin sp4 (("    Age: " : String).data ++ ("N/A" : String).data)
      = ("Age: " : String).data ++ ("N/A" : String).data := by
    have h : ("    Age: " : String).data = sp4 ++ ("Age: " : String).data := by
      decide
    rw [h, List.append_assoc, stripMargin_sp4]
  have hs6 : stripMargin sp4 (("    Prefer Package: " : String).data
        ++ ("N/A" : String).data)
      = ("Prefer Package: " : String).data ++ ("N/A" : String).data := by
    have h : ("    Prefer Package: " : String).data
        = sp4 ++ ("Prefer Package: " : String).data := by decide
    rw [h, List.append_assoc, stripMargin_sp4]
  simp only [dedentLines, List.map_cons, List.map_nil,
    w0, w1, w2, w3, w4, w5, w6, w7]
  simp only [marginOf, List.filter_cons, List.filter_nil,
    hc0, hcL1, hc2, hc3, hc4, hc5, hc6, if_true, if_false,
    Bool.false_eq_true, List.map_cons, List.map_nil,
    hl1, hl2, hl3, hl4, hl5, hl6]
  have hfold : List.foldl commonPfx sp4 [sp4, sp4, sp4, sp4, sp4] = sp4 := by
    decide
  simp only [hfold, hs0, hsL1, hs2, hs3, hs4, hs5, hs6]
  simp only [joinNl]
  simp [strData_append, List.append_assoc]

/-- C2: for a record whose optional `age` and `prefer_package` keys are
absent, the formatter's detail block renders the literal text `N/A` for
both, and the field labels appear in the stable fixed order
ID, Name, Email, Age, Prefer Package, one per line (the present fields are
interpolated in place).  The newline-free hypotheses say the rendered
scalar values are single-line, which holds for every scalar the store can
return. -/
theorem c2_formatter_renders_na_and_fixed_label_order
    (c : PyDict)
    (hage : dictGet c "age" = Option.none)
    (hpkg : dictGet c "prefer_package" = Option.none)
    (hid : '\n' ∉ (fmtIdField c).data)
    (hnm : '\n' ∉ (fmtOptField c "name").data)
    (hem : '\n' ∉ (fmtOptField c "email").data) :
    customerDetailsBlock c
      = "\n" ++ "Customer Details:"
        ++ "\n" ++ "ID: " ++ fmtIdField c
        ++ "\n" ++ "Name: " ++ fmtOptField c "name"
        ++ "\n" ++ "Email: " ++ fmtOptField c "email"
        ++ "\n" ++ "Age: " ++ "N/A"
        ++ "\n" ++ "Prefer Package: " ++ "N/A"
        ++ "\n" := by
  have hA : fmtOptField c "age" = "N/A" := by simp [fmtOptField, hage]
  have hP : fmtOptField c "prefer_package" = "N/A" := by simp [fmtOptField, hpkg]
  unfold customerDetailsBlock customerDetailsBody
  rw [hA, hP]
  exact dedent_customer_template _ _ _ hid hnm hem

/-- The concrete record of the C2 witness: `age` and `prefer_package` keys
absent. -/
def c2Record : PyDict :=
  [("id", PyVal.int 3), ("name", PyVal.str "Bob"),
   ("email", PyVal.str "b@x.y")]

/-- Witness for C2 at a concrete record without the optional keys. -/
theorem c2_witness :
    customerDetailsBlock c2Record
      = "\n" ++ "Customer Details:"
        ++ "\n" ++ "ID: " ++ fmtIdField c2Record
        ++ "\n" ++ "Name: " ++ fmtOptField c2Record "name"
        ++ "\n" ++ "Email: " ++ fmtOptField c2Record "email"
        ++ "\n" ++ "Age: " ++ "N/A"
        ++ "\n" ++ "Prefer Package: " ++ "N/A"
        ++ "\n" := by
  exact c2_formatter_renders_na_and_fixed_label_order c2Record rfl rfl
    (by decide) (by decide) (by decide)
